import Mathlib

/-!
Shallow embedding of the book CRUD service in `src/Exercicio_Livro/index.js`
(an Express + Mongoose application). Request bodies are JSON values already
parsed by `express.json()`; each handler is a pure function from the current
store state and the request data to an HTTP-level response plus the next
store state. JavaScript numbers are modelled as integers: no claim depends
on fractional values. Mongoose/MongoDB behaviour that the handlers rely on
(ObjectId format validation, `$set` partial update with `runValidators` and
`timestamps`, sort by `createdAt` descending with skip/limit, unique `_id`
assignment) is modelled explicitly below, next to the handler that uses it.
-/

namespace ExercicioLivro

/-- A JSON/JavaScript value as it appears in a parsed request body. -/
inductive JsValue where
  | vNull : JsValue
  | vStr : String → JsValue
  | vNum : Int → JsValue
  | vBool : Bool → JsValue
deriving Repr, DecidableEq

/-- JavaScript truthiness of a possibly-absent (`undefined = none`) value:
`undefined`, `null`, `""`, `0` and `false` are falsy. -/
def truthy : Option JsValue → Bool
  | none => false
  | some .vNull => false
  | some (.vStr s) => s != ""
  | some (.vNum n) => n != 0
  | some (.vBool b) => b

/-- JavaScript loose comparison `v == null`: true exactly for `null` and
`undefined`. -/
def isNullish : Option JsValue → Bool
  | none => true
  | some .vNull => true
  | some _ => false

/-- A persisted book document: the five business fields of the schema at
lines 37-43 of index.js (all `required: true`), the `_id` assigned by the
store, and the two timestamps added by `timestamps: true`. -/
structure Book where
  id : Nat
  titulo : String
  autor : String
  editora : String
  ano : Int
  preco : Int
  createdAt : Nat
  updatedAt : Nat
deriving Repr, DecidableEq

/-- The mutable state behind the handlers: the `books` collection, the
counter from which the store derives the next fresh `_id`, and a logical
clock supplying server-set timestamps. -/
structure Store where
  books : List Book
  nextId : Nat
  clock : Nat
deriving Repr, DecidableEq

/-- Value of a hexadecimal digit, `none` for a non-hex character. -/
def hexVal (c : Char) : Option Nat :=
  if '0' ≤ c ∧ c ≤ '9' then some (c.toNat - '0'.toNat)
  else if 'a' ≤ c ∧ c ≤ 'f' then some (c.toNat - 'a'.toNat + 10)
  else if 'A' ≤ c ∧ c ≤ 'F' then some (c.toNat - 'A'.toNat + 10)
  else none

/-- `mongoose.isValidObjectId`: the identifier format is a 24-character
hexadecimal token (the spec glossary's "fixed-length hexadecimal token"). -/
def isValidObjectId (s : String) : Bool :=
  s.length == 24 && s.data.all (fun c => (hexVal c).isSome)

/-- Numeric value of a hexadecimal identifier string: the store key that a
well-formed path parameter refers to. Two equal strings always decode to
the same key. -/
def hexDecode (s : String) : Nat :=
  s.data.foldl (fun a c => 16 * a + ((hexVal c).getD 0)) 0

/-- `Book.findById`: the document whose `_id` is `bid`, if any. -/
def findBook (l : List Book) (bid : Nat) : Option Book :=
  l.find? (fun b => b.id == bid)

/-- The HTTP responses the five book handlers can produce. -/
inductive HResp where
  | badRequest : String → HResp
  | notFound : String → HResp
  | created : Book → HResp
  | okBook : Book → HResp
  | okList : Int → Int → Nat → List Book → HResp
  | okDeleted : String → Book → HResp
  | serverError : String → HResp
deriving Repr, DecidableEq

/-- The body of a POST /books request after destructuring: each of the five
schema fields is either absent (`none`) or carries a JSON value. -/
structure CreateBody where
  titulo : Option JsValue
  autor : Option JsValue
  editora : Option JsValue
  ano : Option JsValue
  preco : Option JsValue
deriving Repr, DecidableEq

/-- The validation test at line 55:
`!titulo || !autor || !editora || ano == null || preco == null`. -/
def missingRequired (body : CreateBody) : Bool :=
  !truthy body.titulo || !truthy body.autor || !truthy body.editora
    || isNullish body.ano || isNullish body.preco

/-- Mongoose cast of a JS value to a `String` path; every primitive casts. -/
def jsToString : JsValue → Option String
  | .vNull => none
  | .vStr s => some s
  | .vNum n => some (toString n)
  | .vBool b => some (if b then "true" else "false")

/-- A `String` path with `required: true`: cast, then reject null and the
empty string (mongoose's required check for strings needs positive length). -/
def castReqString (v : JsValue) : Option String :=
  match jsToString v with
  | none => none
  | some str => if str == "" then none else some str

/-- A `Number` path with `required: true`: numbers pass, booleans cast to
0/1, numeric strings parse, anything else is a cast error. -/
def castReqNum : JsValue → Option Int
  | .vNull => none
  | .vNum n => some n
  | .vBool b => some (if b then 1 else 0)
  | .vStr s => s.toInt?

/-- POST /books (lines 52-66): reject with 400 if the line-55 test fires;
otherwise `new Book(...).save()` validates the schema, assigns a fresh
`_id` and both timestamps, and answers 201 with the saved document.
A schema validation/cast failure is caught and answered as 500. -/
def postBooks (s : Store) (body : CreateBody) : HResp × Store :=
  if missingRequired body then
    (.badRequest "Campos obrigatórios: titulo, autor, editora, ano, preco", s)
  else
    match castReqString ((body.titulo).getD .vNull),
          castReqString ((body.autor).getD .vNull),
          castReqString ((body.editora).getD .vNull),
          castReqNum ((body.ano).getD .vNull),
          castReqNum ((body.preco).getD .vNull) with
    | some t, some a, some e, some y, some p =>
        let b : Book := { id := s.nextId, titulo := t, autor := a, editora := e,
                          ano := y, preco := p, createdAt := s.clock, updatedAt := s.clock }
        (.created b, { books := b :: s.books, nextId := s.nextId + 1, clock := s.clock + 1 })
    | _, _, _, _, _ => (.serverError "Erro ao criar o livro", s)

/-- JavaScript `x || d` on the result of `parseInt`: `none` models NaN
(absent or non-numeric query parameter), and both NaN and 0 are falsy, so
they fall back to the default. -/
def jsOrDefault (v : Option Int) (d : Int) : Int :=
  match v with
  | none => d
  | some n => if n == 0 then d else n

/-- Line 71: `Math.max(1, parseInt(req.query.page) || 1)`. -/
def effPage (q : Option Int) : Int := max 1 (jsOrDefault q 1)

/-- Line 72: `Math.max(1, Math.min(100, parseInt(req.query.limit) || 20))`. -/
def effLimit (q : Option Int) : Int := max 1 (min 100 (jsOrDefault q 20))

/-- Ordering used by `.sort(\x7b createdAt: -1 \x7d)`: newer (larger
`createdAt`) documents come first. -/
def createdGe (a b : Book) : Prop := b.createdAt ≤ a.createdAt

instance : DecidableRel createdGe := fun a b => Nat.decLe b.createdAt a.createdAt

instance : IsTotal Book createdGe := ⟨fun a b => Nat.le_total b.createdAt a.createdAt⟩

instance : IsTrans Book createdGe := ⟨fun _ _ _ h1 h2 => Nat.le_trans h2 h1⟩

/-- The collection sorted by creation timestamp, newest first. -/
def sortByCreatedDesc (l : List Book) : List Book := l.insertionSort createdGe

/-- GET /books (lines 69-85): effective page and limit, skip =
(page−1)×limit, the sorted window of the collection, and the total count
of all documents (`countDocuments`, independent of the window). -/
def getBooks (s : Store) (pageQ limitQ : Option Int) : HResp × Store :=
  let page := effPage pageQ
  let limit := effLimit limitQ
  let skip := (page - 1) * limit
  let items := ((sortByCreatedDesc s.books).drop skip.toNat).take limit.toNat
  (.okList page limit s.books.length items, s)

/-- GET /books/:id (lines 88-101): 400 on a malformed identifier, 404 when
no document matches, otherwise the document. -/
def getBookById (s : Store) (idStr : String) : HResp × Store :=
  if !isValidObjectId idStr then (.badRequest "ID inválido", s)
  else
    match findBook s.books (hexDecode idStr) with
    | none => (.notFound "Livro não encontrado", s)
    | some b => (.okBook b, s)

/-- The body of a PUT /books/:id request. The handler destructures exactly
the five schema fields (line 109); every other key of the JSON object ends
up in `extras`, which no handler code reads. -/
structure UpdateBody where
  titulo : Option JsValue
  autor : Option JsValue
  editora : Option JsValue
  ano : Option JsValue
  preco : Option JsValue
  extras : List (String × JsValue)
deriving Repr, DecidableEq

/-- Lines 110-117: the `$set` object built from the defined fields is
non-empty. -/
def hasUpdate (body : UpdateBody) : Bool :=
  body.titulo.isSome || body.autor.isSome || body.editora.isSome
    || body.ano.isSome || body.preco.isSome

/-- One `String` path under `$set` with `runValidators`: keep the stored
value when the field was not supplied, otherwise cast and validate. -/
def setStr (old : String) : Option JsValue → Option String
  | none => some old
  | some v => castReqString v

/-- One `Number` path under `$set` with `runValidators`. -/
def setNum (old : Int) : Option JsValue → Option Int
  | none => some old
  | some v => castReqNum v

/-- `findByIdAndUpdate(id, \x7b $set: update \x7d, \x7b new: true,
runValidators: true \x7d)` applied to a found document: overwrite exactly
the supplied paths (each validated), keep the rest, and let
`timestamps: true` refresh `updatedAt`; `none` is a validation failure. -/
def applyUpdate (b : Book) (body : UpdateBody) (now : Nat) : Option Book :=
  match setStr b.titulo body.titulo, setStr b.autor body.autor,
        setStr b.editora body.editora, setNum b.ano body.ano,
        setNum b.preco body.preco with
  | some t, some a, some e, some y, some p =>
      some { b with titulo := t, autor := a, editora := e, ano := y, preco := p,
                    updatedAt := now }
  | _, _, _, _, _ => none

/-- Replace the document with `_id = bid` by `b'` in the collection. -/
def replaceBook (l : List Book) (bid : Nat) (b' : Book) : List Book :=
  l.map (fun x => if x.id == bid then b' else x)

/-- PUT /books/:id (lines 104-129): 400 on a malformed identifier, 400 when
no field is supplied, 404 when no document matches, 500 when update
validation fails, otherwise the updated document with `new: true`. -/
def putBooks (s : Store) (idStr : String) (body : UpdateBody) : HResp × Store :=
  if !isValidObjectId idStr then (.badRequest "ID inválido", s)
  else if !hasUpdate body then (.badRequest "Nenhum campo para atualizar", s)
  else
    match findBook s.books (hexDecode idStr) with
    | none => (.notFound "Livro não encontrado", s)
    | some b =>
      match applyUpdate b body s.clock with
      | none => (.serverError "Erro ao atualizar livro", s)
      | some b' =>
          (.okBook b', { s with books := replaceBook s.books b.id b', clock := s.clock + 1 })

/-- DELETE /books/:id (lines 132-145): 400 on a malformed identifier, 404
when no document matches, otherwise `findByIdAndDelete` removes the one
matching document and the response echoes it. -/
def deleteBook (s : Store) (idStr : String) : HResp × Store :=
  if !isValidObjectId idStr then (.badRequest "ID inválido", s)
  else
    match findBook s.books (hexDecode idStr) with
    | none => (.notFound "Livro não encontrado", s)
    | some b =>
        (.okDeleted "Livro removido com sucesso" b,
         { s with books := s.books.eraseP (fun x => x.id == b.id) })

/-- Schema validity of a stored document: the three `String` paths satisfy
their `required` validator (non-empty); the `Number` paths are numbers by
construction. -/
def validBook (b : Book) : Bool :=
  b.titulo != "" && b.autor != "" && b.editora != ""

/-- Invariant maintained by the store: ids are below the fresh counter and
pairwise distinct (MongoDB's unique `_id` index), timestamps are below the
clock, and every stored document passed schema validation. -/
def Store.wf (s : Store) : Prop :=
  (∀ b ∈ s.books, b.id < s.nextId) ∧
  (s.books.map Book.id).Nodup ∧
  (∀ b ∈ s.books, b.createdAt < s.clock ∧ b.updatedAt < s.clock) ∧
  (∀ b ∈ s.books, validBook b = true)

instance (s : Store) : Decidable s.wf := by
  unfold Store.wf; infer_instance

/-- A create body whose five fields are strings/numbers, as in the spec's
scenario payloads. -/
def mkCreateBody (t a e : String) (y p : Int) : CreateBody :=
  { titulo := some (.vStr t), autor := some (.vStr a), editora := some (.vStr e),
    ano := some (.vNum y), preco := some (.vNum p) }

/-- Concrete fixture: a stored book. -/
def bookA : Book :=
  { id := 0, titulo := "A", autor := "B", editora := "C",
    ano := 2020, preco := 10, createdAt := 0, updatedAt := 0 }

/-- Concrete fixture: a store holding `bookA`. -/
def storeA : Store := { books := [bookA], nextId := 1, clock := 1 }

/-- A well-formed identifier string decoding to `bookA.id`. -/
def zeroId : String := "000000000000000000000000"

/-- A well-formed identifier string matching no document of `storeA`. -/
def absentId : String := "000000000000000000000001"

/-- An update body supplying none of the five schema fields. -/
def emptyUpdateBody : UpdateBody :=
  { titulo := none, autor := none, editora := none, ano := none, preco := none,
    extras := [] }

/-- An update body supplying only `preco`. -/
def precoBody : UpdateBody := { emptyUpdateBody with preco := some (.vNum 12) }

/-- The result of applying `precoBody` to `bookA` at clock 1. -/
def bookA' : Book := { bookA with preco := 12, updatedAt := 1 }

/-- An update body that tries to set only non-schema keys, among them the
identifier and the creation timestamp. -/
def exBody : UpdateBody :=
  { emptyUpdateBody with extras := [("_id", .vStr "ff"), ("createdAt", .vNum 9)] }

/-- A nullish value is falsy. -/
lemma truthy_eq_false_of_isNullish (v : Option JsValue) (h : isNullish v = true) :
    truthy v = false := by
  cases v with
  | none => rfl
  | some w => cases w <;> simp_all [isNullish, truthy]

/-- A value accepted by the required-string validator is non-empty. -/
lemma castReqString_ne_empty (v : JsValue) (str : String)
    (h : castReqString v = some str) : str ≠ "" := by
  unfold castReqString at h
  cases hv : jsToString v with
  | none => rw [hv] at h; exact Option.noConfusion h
  | some s0 =>
      rw [hv] at h
      by_cases he : (s0 == "") = true
      · simp [he] at h
      · simp only [he, Bool.false_eq_true, if_false, Option.some.injEq] at h
        subst h
        simpa using he

/-- What a successful `$set` update determines about the result record. -/
lemma applyUpdate_eq (b : Book) (body : UpdateBody) (now : Nat) (b' : Book)
    (h : applyUpdate b body now = some b') :
    setStr b.titulo body.titulo = some b'.titulo ∧
    setStr b.autor body.autor = some b'.autor ∧
    setStr b.editora body.editora = some b'.editora ∧
    setNum b.ano body.ano = some b'.ano ∧
    setNum b.preco body.preco = some b'.preco ∧
    b'.id = b.id ∧ b'.createdAt = b.createdAt ∧ b'.updatedAt = now := by
  unfold applyUpdate at h
  split at h
  next t a e y p ht ha he hy hp =>
    cases h
    exact ⟨ht, ha, he, hy, hp, rfl, rfl, rfl⟩
  next => exact Option.noConfusion h

/-- After erasing the document with key `bid` from a collection with
pairwise-distinct ids, no document with key `bid` remains. -/
lemma findBook_eraseP_eq_none (l : List Book) (bid : Nat)
    (hnd : (l.map Book.id).Nodup) :
    findBook (l.eraseP (fun x => x.id == bid)) bid = none := by
  induction l with
  | nil => rfl
  | cons a t ih =>
      rw [List.map_cons, List.nodup_cons] at hnd
      by_cases ha : a.id = bid
      · rw [List.eraseP_cons_of_pos (by simp [ha])]
        unfold findBook
        apply List.find?_eq_none.mpr
        intro x hx hxx
        have hxid : x.id = bid := by simpa using hxx
        have : a.id ∈ t.map Book.id := by
          rw [ha, ← hxid]; exact List.mem_map_of_mem Book.id hx
        exact hnd.1 this
      · rw [List.eraseP_cons_of_neg (by simp [ha])]
        unfold findBook
        rw [List.find?_cons_of_neg _ (by simp [ha])]
        exact ih hnd.2

/-- Evaluation of the create handler on a fully-supplied string/number body
with non-empty text fields. -/
lemma postBooks_mk (s : Store) (t a e : String) (y p : Int)
    (ht : t ≠ "") (ha : a ≠ "") (he : e ≠ "") :
    postBooks s (mkCreateBody t a e y p)
      = (.created { id := s.nextId, titulo := t, autor := a, editora := e, ano := y,
                    preco := p, createdAt := s.clock, updatedAt := s.clock },
         { books := { id := s.nextId, titulo := t, autor := a, editora := e, ano := y,
                      preco := p, createdAt := s.clock, updatedAt := s.clock } :: s.books,
           nextId := s.nextId + 1, clock := s.clock + 1 }) := by
  have hm : missingRequired (mkCreateBody t a e y p) = false := by
    simp [missingRequired, mkCreateBody, truthy, isNullish, ht, ha, he]
  unfold postBooks
  rw [hm]
  simp [mkCreateBody, castReqString, jsToString, castReqNum, ht, ha, he]

/-- C1 counterexample: the claim says `limit=0` behaves as `limit=1`, but
`parseInt(req.query.limit) || 20` treats 0 as falsy, so the effective limit
is the default 20, not 1; the list handler echoes limit 20. -/
theorem C1_limit_zero_counterexample :
    effLimit (some 0) = 20 ∧ effLimit (some 0) ≠ 1 ∧
    (getBooks { books := [], nextId := 0, clock := 0 } none (some 0)).1
      = .okList 1 20 0 [] := by decide

/-- C1 (amended): the effective page defaults to 1 and is floored at 1, the
effective limit defaults to 20 and always lands in [1,100] rather than
being rejected; `limit=1000` behaves as `limit=100`, negative limits are
floored to 1, but `limit=0` is falsy and falls back to the default 20; the
list handler skips exactly (page−1)×limit sorted documents. -/
theorem C1_pagination (s : Store) (pq lq : Option Int) :
    1 ≤ effPage pq ∧ effPage none = 1 ∧
    1 ≤ effLimit lq ∧ effLimit lq ≤ 100 ∧
    effLimit none = 20 ∧ effLimit (some 1000) = 100 ∧
    effLimit (some 0) = 20 ∧ effLimit (some (-5)) = 1 ∧
    (getBooks s pq lq).1
      = .okList (effPage pq) (effLimit lq) s.books.length
          (((sortByCreatedDesc s.books).drop ((effPage pq - 1) * effLimit lq).toNat).take
            (effLimit lq).toNat) := by
  refine ⟨le_max_left 1 _, by decide, le_max_left 1 _, ?_, by decide, by decide,
          by decide, by decide, rfl⟩
  exact max_le (by norm_num) (min_le_left 100 _)

/-- C2: a create request with any of the five required fields absent or
null is answered 400 and leaves the store untouched. -/
theorem C2_create_missing_field (s : Store) (body : CreateBody)
    (h : isNullish body.titulo = true ∨ isNullish body.autor = true ∨
         isNullish body.editora = true ∨ isNullish body.ano = true ∨
         isNullish body.preco = true) :
    postBooks s body
      = (.badRequest "Campos obrigatórios: titulo, autor, editora, ano, preco", s) := by
  have hm : missingRequired body = true := by
    unfold missingRequired
    rcases h with h | h | h | h | h
    · simp [truthy_eq_false_of_isNullish _ h]
    · simp [truthy_eq_false_of_isNullish _ h]
    · simp [truthy_eq_false_of_isNullish _ h]
    · simp [h]
    · simp [h]
  unfold postBooks
  rw [hm]
  simp

/-- C2 witness: a body missing `titulo` is rejected on the empty store. -/
theorem C2_create_missing_field_witness :
    postBooks { books := [], nextId := 0, clock := 0 }
        { titulo := none, autor := some (.vStr "B"), editora := some (.vStr "C"),
          ano := some (.vNum 2020), preco := some (.vNum 10) }
      = (.badRequest "Campos obrigatórios: titulo, autor, editora, ano, preco",
         { books := [], nextId := 0, clock := 0 }) :=
  C2_create_missing_field _ _ (Or.inl (by decide))

/-- C3: for page ≥ 1 and 1 ≤ limit ≤ 100 the list handler echoes page and
limit, reports the total size of the whole collection independently of the
requested page, and returns at most `limit` items ordered by creation
timestamp descending. -/
theorem C3_list_window (s : Store) (p l : Int)
    (hp : 1 ≤ p) (hl1 : 1 ≤ l) (hl2 : l ≤ 100) :
    getBooks s (some p) (some l)
      = (.okList p l s.books.length
          (((sortByCreatedDesc s.books).drop ((p - 1) * l).toNat).take l.toNat), s) ∧
    ((((sortByCreatedDesc s.books).drop ((p - 1) * l).toNat).take l.toNat).length : Int) ≤ l ∧
    List.Sorted createdGe
      (((sortByCreatedDesc s.books).drop ((p - 1) * l).toNat).take l.toNat) := by
  have hp0 : (p == 0) = false := by simp only [beq_eq_false_iff_ne, ne_eq]; omega
  have hl0 : (l == 0) = false := by simp only [beq_eq_false_iff_ne, ne_eq]; omega
  have hpe : effPage (some p) = p := by
    simp only [effPage, jsOrDefault]
    rw [hp0]
    simp only [Bool.false_eq_true, if_false]
    exact sup_eq_right.mpr hp
  have hle : effLimit (some l) = l := by
    simp only [effLimit, jsOrDefault]
    rw [hl0]
    simp only [Bool.false_eq_true, if_false]
    rw [inf_eq_right.mpr hl2]
    exact sup_eq_right.mpr hl1
  refine ⟨?_, ?_, ?_⟩
  · unfold getBooks
    rw [hpe, hle]
  · have h1 : (((sortByCreatedDesc s.books).drop ((p - 1) * l).toNat).take l.toNat).length
        ≤ l.toNat := List.length_take_le l.toNat _
    have h2 : (l.toNat : Int) = l := Int.toNat_of_nonneg (by omega)
    have h3 := Int.ofNat_le.mpr h1
    rwa [h2] at h3
  · exact (List.sorted_insertionSort createdGe s.books).sublist
      ((List.take_sublist _ _).trans (List.drop_sublist _ _))

/-- C3 witness: page 2 with limit 1 on the one-book store returns no items
but still reports total 1 and echoes page and limit. -/
theorem C3_list_window_witness :
    getBooks storeA (some 2) (some 1)
      = (.okList 2 1 storeA.books.length
          (((sortByCreatedDesc storeA.books).drop (((2 : Int) - 1) * 1).toNat).take
            (1 : Int).toNat), storeA) ∧
    ((((sortByCreatedDesc storeA.books).drop (((2 : Int) - 1) * 1).toNat).take
        (1 : Int).toNat).length : Int) ≤ 1 ∧
    List.Sorted createdGe
      (((sortByCreatedDesc storeA.books).drop (((2 : Int) - 1) * 1).toNat).take
        (1 : Int).toNat) :=
  C3_list_window storeA 2 1 (by decide) (by decide) (by decide)

/-- C4: a valid-identifier update that matches a stored record and supplies
a non-empty, validator-passing subset of the five fields changes only the
supplied fields, keeps the identifier and creation timestamp, advances the
last-modified timestamp, leaves the merged record schema-valid, and answers
200 with the updated record. -/
theorem C4_update_partial (s : Store) (idStr : String) (body : UpdateBody) (b b' : Book)
    (hwf : s.wf) (hid : isValidObjectId idStr = true)
    (hfind : findBook s.books (hexDecode idStr) = some b)
    (hsome : hasUpdate body = true)
    (happ : applyUpdate b body s.clock = some b') :
    putBooks s idStr body
      = (.okBook b', { s with books := replaceBook s.books b.id b',
                              clock := s.clock + 1 }) ∧
    b'.id = b.id ∧ b'.createdAt = b.createdAt ∧
    (body.titulo = none → b'.titulo = b.titulo) ∧
    (body.autor = none → b'.autor = b.autor) ∧
    (body.editora = none → b'.editora = b.editora) ∧
    (body.ano = none → b'.ano = b.ano) ∧
    (body.preco = none → b'.preco = b.preco) ∧
    b.updatedAt < b'.updatedAt ∧
    validBook b' = true := by
  obtain ⟨ht, ha, he, hy, hp, hid', hcr, hup⟩ := applyUpdate_eq b body s.clock b' happ
  have hmem : b ∈ s.books := List.mem_of_find?_eq_some hfind
  have hb := hwf.2.2.2 b hmem
  simp only [validBook, Bool.and_eq_true, bne_iff_ne, ne_eq] at hb
  refine ⟨?_, hid', hcr, ?_, ?_, ?_, ?_, ?_, ?_, ?_⟩
  · simp [putBooks, hid, hsome, hfind, happ]
  · intro hn; rw [hn] at ht; exact (Option.some.inj ht).symm ▸ rfl
  · intro hn; rw [hn] at ha; exact (Option.some.inj ha).symm ▸ rfl
  · intro hn; rw [hn] at he; exact (Option.some.inj he).symm ▸ rfl
  · intro hn; rw [hn] at hy; exact (Option.some.inj hy).symm ▸ rfl
  · intro hn; rw [hn] at hp; exact (Option.some.inj hp).symm ▸ rfl
  · rw [hup]; exact (hwf.2.2.1 b hmem).2
  · simp only [validBook, Bool.and_eq_true, bne_iff_ne, ne_eq]
    refine ⟨⟨?_, ?_⟩, ?_⟩
    · cases hbt : body.titulo with
      | none => rw [hbt] at ht; rw [← Option.some.inj ht]; exact hb.1.1
      | some v => rw [hbt] at ht; exact castReqString_ne_empty v b'.titulo ht
    · cases hba : body.autor with
      | none => rw [hba] at ha; rw [← Option.some.inj ha]; exact hb.1.2
      | some v => rw [hba] at ha; exact castReqString_ne_empty v b'.autor ha
    · cases hbe : body.editora with
      | none => rw [hbe] at he; rw [← Option.some.inj he]; exact hb.2
      | some v => rw [hbe] at he; exact castReqString_ne_empty v b'.editora he

/-- C4 witness: updating only `preco` of the stored book changes `preco`,
advances `updatedAt` and leaves the other fields alone. -/
theorem C4_update_partial_witness :
    putBooks storeA zeroId precoBody
      = (.okBook bookA', { storeA with books := replaceBook storeA.books bookA.id bookA',
                                       clock := storeA.clock + 1 }) ∧
    bookA'.preco = 12 ∧ bookA'.titulo = bookA.titulo ∧
    bookA.updatedAt < bookA'.updatedAt := by
  have h := C4_update_partial storeA zeroId precoBody bookA bookA'
    (by decide) (by decide) (by decide) (by decide) (by decide)
  exact ⟨h.1, by decide, by decide, h.2.2.2.2.2.2.2.2.1⟩

/-- C5: an update request with a malformed identifier, or one that supplies
none of the five fields, is answered 400 and leaves the store untouched. -/
theorem C5_update_bad_request (s : Store) (idStr : String) (body : UpdateBody)
    (h : isValidObjectId idStr = false ∨ hasUpdate body = false) :
    putBooks s idStr body = (.badRequest "ID inválido", s) ∨
    putBooks s idStr body = (.badRequest "Nenhum campo para atualizar", s) := by
  rcases h with h | h
  · exact Or.inl (by simp [putBooks, h])
  · cases hv : isValidObjectId idStr with
    | false => exact Or.inl (by simp [putBooks, hv])
    | true => exact Or.inr (by simp [putBooks, hv, h])

/-- C5 witness: an empty update body on a well-formed identifier is a 400
that does not modify the store. -/
theorem C5_update_bad_request_witness :
    putBooks storeA zeroId emptyUpdateBody = (.badRequest "ID inválido", storeA) ∨
    putBooks storeA zeroId emptyUpdateBody
      = (.badRequest "Nenhum campo para atualizar", storeA) :=
  C5_update_bad_request storeA zeroId emptyUpdateBody (Or.inr (by decide))

/-- C6: get-by-id answers 400 on a malformed identifier, 404 on a
well-formed identifier matching no record, and 200 with exactly the
matched record otherwise; the store is never modified. -/
theorem C6_get_by_id (s : Store) (idStr : String) :
    (isValidObjectId idStr = false →
       getBookById s idStr = (.badRequest "ID inválido", s)) ∧
    (isValidObjectId idStr = true → findBook s.books (hexDecode idStr) = none →
       getBookById s idStr = (.notFound "Livro não encontrado", s)) ∧
    (∀ b, isValidObjectId idStr = true → findBook s.books (hexDecode idStr) = some b →
       getBookById s idStr = (.okBook b, s)) := by
  refine ⟨?_, ?_, ?_⟩
  · intro h; simp [getBookById, h]
  · intro h hn; simp [getBookById, h, hn]
  · intro b h hb; simp [getBookById, h, hb]

/-- C6 witness: "abc" is rejected as malformed, a fresh well-formed
identifier is not found, and `zeroId` returns exactly the stored book. -/
theorem C6_get_by_id_witness :
    getBookById storeA "abc" = (.badRequest "ID inválido", storeA) ∧
    getBookById storeA absentId = (.notFound "Livro não encontrado", storeA) ∧
    getBookById storeA zeroId = (.okBook bookA, storeA) :=
  ⟨(C6_get_by_id storeA "abc").1 (by decide),
   (C6_get_by_id storeA absentId).2.1 (by decide) (by decide),
   (C6_get_by_id storeA zeroId).2.2 bookA (by decide) (by decide)⟩

/-- C7: delete answers 400 on a malformed identifier and 404 when nothing
matches; on a match it echoes the pre-deletion record, and a subsequent
get-by-id with the same identifier answers 404. -/
theorem C7_delete (s : Store) (idStr : String) :
    (isValidObjectId idStr = false →
       deleteBook s idStr = (.badRequest "ID inválido", s)) ∧
    (isValidObjectId idStr = true → findBook s.books (hexDecode idStr) = none →
       deleteBook s idStr = (.notFound "Livro não encontrado", s)) ∧
    (∀ b, s.wf → isValidObjectId idStr = true →
       findBook s.books (hexDecode idStr) = some b →
       (deleteBook s idStr).1 = .okDeleted "Livro removido com sucesso" b ∧
       (getBookById (deleteBook s idStr).2 idStr).1 = .notFound "Livro não encontrado") := by
  refine ⟨?_, ?_, ?_⟩
  · intro h; simp [deleteBook, h]
  · intro h hn; simp [deleteBook, h, hn]
  · intro b hwf hid hfind
    have hb : b.id = hexDecode idStr := by
      simpa using List.find?_some hfind
    have hnone : findBook (s.books.eraseP (fun x => x.id == b.id)) (hexDecode idStr)
        = none := by
      rw [← hb]
      exact findBook_eraseP_eq_none s.books b.id hwf.2.1
    constructor
    · simp [deleteBook, hid, hfind]
    · simp [deleteBook, hid, hfind, getBookById, hnone]

/-- C7 witness: deleting the stored book echoes it, and getting the same
identifier afterwards is a 404. -/
theorem C7_delete_witness :
    (deleteBook storeA zeroId).1 = .okDeleted "Livro removido com sucesso" bookA ∧
    (getBookById (deleteBook storeA zeroId).2 zeroId).1 = .notFound "Livro não encontrado" :=
  (C7_delete storeA zeroId).2.2 bookA (by decide) (by decide) (by decide)

/-- C8 counterexample: a body whose five fields are all present and
non-null, but whose `titulo` is the empty string, is answered 400, not 201:
the line-55 check tests truthiness, not mere presence, for the text
fields. -/
theorem C8_create_empty_string_counterexample :
    (mkCreateBody "" "B" "C" 2020 10).titulo = some (.vStr "") ∧
    isNullish (mkCreateBody "" "B" "C" 2020 10).titulo = false ∧
    isNullish (mkCreateBody "" "B" "C" 2020 10).autor = false ∧
    isNullish (mkCreateBody "" "B" "C" 2020 10).editora = false ∧
    isNullish (mkCreateBody "" "B" "C" 2020 10).ano = false ∧
    isNullish (mkCreateBody "" "B" "C" 2020 10).preco = false ∧
    postBooks { books := [], nextId := 0, clock := 0 } (mkCreateBody "" "B" "C" 2020 10)
      = (.badRequest "Campos obrigatórios: titulo, autor, editora, ano, preco",
         { books := [], nextId := 0, clock := 0 }) := by decide

/-- C8 (amended): a create request whose three text fields are present and
truthy (non-empty strings) and whose `ano` and `preco` are present non-null
numbers is answered 201 with a record whose five business fields equal the
input, carrying a store-assigned identifier distinct from every existing
one plus creation and last-modified timestamps; the store stays
well-formed, so repeated calls keep assigning fresh identifiers. -/
theorem C8_create_valid (s : Store) (t a e : String) (y p : Int)
    (hwf : s.wf) (ht : t ≠ "") (ha : a ≠ "") (he : e ≠ "") :
    (postBooks s (mkCreateBody t a e y p)).1
      = .created { id := s.nextId, titulo := t, autor := a, editora := e, ano := y,
                   preco := p, createdAt := s.clock, updatedAt := s.clock } ∧
    (∀ b0 ∈ s.books, b0.id ≠ s.nextId) ∧
    (postBooks s (mkCreateBody t a e y p)).2.wf := by
  have hpost := postBooks_mk s t a e y p ht ha he
  refine ⟨by rw [hpost], ?_, ?_⟩
  · intro b0 hb0
    exact Nat.ne_of_lt (hwf.1 b0 hb0)
  · rw [hpost]
    obtain ⟨h1, h2, h3, h4⟩ := hwf
    unfold Store.wf
    refine ⟨?_, ?_, ?_, ?_⟩
    · intro b hb
      rcases List.mem_cons.mp hb with rfl | hb
      · exact Nat.lt_succ_self _
      · exact Nat.lt_succ_of_lt (h1 b hb)
    · rw [List.map_cons, List.nodup_cons]
      refine ⟨?_, h2⟩
      intro hmem
      rcases List.mem_map.mp hmem with ⟨b0, hb0, hid0⟩
      exact absurd hid0 (Nat.ne_of_lt (h1 b0 hb0))
    · intro b hb
      rcases List.mem_cons.mp hb with rfl | hb
      · exact ⟨Nat.lt_succ_self _, Nat.lt_succ_self _⟩
      · exact ⟨Nat.lt_succ_of_lt (h3 b hb).1, Nat.lt_succ_of_lt (h3 b hb).2⟩
    · intro b hb
      rcases List.mem_cons.mp hb with rfl | hb
      · simp [validBook, ht, ha, he]
      · exact h4 b hb

/-- C8 witness: a concrete valid payload on the one-book store is created
with the fresh identifier 1 and the store stays well-formed. -/
theorem C8_create_valid_witness :
    (postBooks storeA (mkCreateBody "D" "E" "F" 1999 7)).1
      = .created { id := storeA.nextId, titulo := "D", autor := "E", editora := "F",
                   ano := 1999, preco := 7, createdAt := storeA.clock,
                   updatedAt := storeA.clock } ∧
    (postBooks storeA (mkCreateBody "D" "E" "F" 1999 7)).2.wf := by
  have h := C8_create_valid storeA "D" "E" "F" 1999 7
    (by decide) (by decide) (by decide) (by decide)
  exact ⟨h.1, h.2.2⟩

/-- C9: the presence check is asymmetric: a present-but-empty string for
`titulo`, `autor` or `editora` is falsy and rejected with 400, while 0 is
accepted as a present value for both `ano` and `preco`. -/
theorem C9_presence_asymmetry (s : Store) (body : CreateBody) (t a e : String)
    (ht : t ≠ "") (ha : a ≠ "") (he : e ≠ "") :
    ((body.titulo = some (.vStr "") ∨ body.autor = some (.vStr "") ∨
        body.editora = some (.vStr "")) →
      postBooks s body
        = (.badRequest "Campos obrigatórios: titulo, autor, editora, ano, preco", s)) ∧
    (postBooks s (mkCreateBody t a e 0 0)).1
      = .created { id := s.nextId, titulo := t, autor := a, editora := e, ano := 0,
                   preco := 0, createdAt := s.clock, updatedAt := s.clock } := by
  constructor
  · intro h
    have hm : missingRequired body = true := by
      unfold missingRequired
      rcases h with h | h | h <;> rw [h] <;> simp [truthy]
    unfold postBooks
    rw [hm]
    simp
  · rw [postBooks_mk s t a e 0 0 ht ha he]

/-- C9 witness: an empty `titulo` is rejected while `ano = 0` and
`preco = 0` are created. -/
theorem C9_presence_asymmetry_witness :
    postBooks storeA (mkCreateBody "" "B" "C" 2020 10)
      = (.badRequest "Campos obrigatórios: titulo, autor, editora, ano, preco", storeA) ∧
    (postBooks storeA (mkCreateBody "G" "H" "I" 0 0)).1
      = .created { id := storeA.nextId, titulo := "G", autor := "H", editora := "I",
                   ano := 0, preco := 0, createdAt := storeA.clock,
                   updatedAt := storeA.clock } :=
  ⟨(C9_presence_asymmetry storeA (mkCreateBody "" "B" "C" 2020 10) "G" "H" "I"
      (by decide) (by decide) (by decide)).1 (Or.inl rfl),
   (C9_presence_asymmetry storeA (mkCreateBody "" "B" "C" 2020 10) "G" "H" "I"
      (by decide) (by decide) (by decide)).2⟩

/-- C10: the update handler builds its `$set` object only from the five
schema fields: a body supplying none of them is answered 400 with the
store untouched, whatever other keys (identifier, timestamps, anything)
the body carries, and the handler's result never depends on those other
keys. -/
theorem C10_update_only_schema_fields (s : Store) (idStr : String) (body : UpdateBody)
    (h1 : body.titulo = none) (h2 : body.autor = none) (h3 : body.editora = none)
    (h4 : body.ano = none) (h5 : body.preco = none) :
    (putBooks s idStr body = (.badRequest "ID inválido", s) ∨
     putBooks s idStr body = (.badRequest "Nenhum campo para atualizar", s)) ∧
    (∀ es, putBooks s idStr { body with extras := es } = putBooks s idStr body) := by
  constructor
  · have hu : hasUpdate body = false := by
      simp [hasUpdate, h1, h2, h3, h4, h5]
    cases hv : isValidObjectId idStr with
    | false => exact Or.inl (by simp [putBooks, hv])
    | true => exact Or.inr (by simp [putBooks, hv, hu])
  · intro es
    rfl

/-- C10 witness: a body setting only `_id` and `createdAt` is a 400 that
leaves the store untouched, and behaves exactly like the empty body. -/
theorem C10_update_only_schema_fields_witness :
    (putBooks storeA zeroId exBody = (.badRequest "ID inválido", storeA) ∨
     putBooks storeA zeroId exBody = (.badRequest "Nenhum campo para atualizar", storeA)) ∧
    putBooks storeA zeroId exBody = putBooks storeA zeroId emptyUpdateBody := by
  have h := C10_update_only_schema_fields storeA zeroId exBody rfl rfl rfl rfl rfl
  have h0 := C10_update_only_schema_fields storeA zeroId emptyUpdateBody rfl rfl rfl rfl rfl
  exact ⟨h.1, h0.2 [("_id", .vStr "ff"), ("createdAt", .vNum 9)]⟩

end ExercicioLivro
